import Mathlib

/-
Verification of the SlimeTube client-side video storage layer and upload
pipeline, shallowly embedded from the TypeScript source.

Blob Store  : src/services/IndexedDBStorageService.ts
Upload flow : src/components/VideoUpload/VideoUploadModal.tsx
User lists  : src/services/UserService.ts, src/hooks/useVideoDatabase.ts

The IndexedDB object store (keyPath "id") is modelled as a list of records in
insertion order; asynchronous requests that resolve become total functions,
requests that reject become Except errors.  Browser-environment quantities
that the code merely reads (storage estimate, media-element duration, sampled
video frame) are passed in as parameters.
-/

namespace SlimeTube

/-- Model of a browser File: a named, MIME-typed sequence of bytes.  The
platform-defined File.size is the byte length of the content. -/
structure JSFile where
  name : String
  type : String
  content : List Nat
deriving Repr, DecidableEq

/-- Browser semantics: File.size is the byte length of the file content. -/
def JSFile.size (f : JSFile) : Nat := f.content.length

/-- Record stored in the "videos" object store
(interface StoredVideo, IndexedDBStorageService.ts). -/
structure StoredVideo where
  id : String
  file : JSFile
  title : String
  description : String
  uploadDate : String
  duration : Nat
  thumbnail : String
  size : Nat
deriving Repr, DecidableEq

/-- State of the IndexedDB "videos" object store, in insertion order. -/
abbrev Store := List StoredVideo

/-- Errors the storage layer can reject with. -/
inductive StorageError where
  | quotaExceeded
  | storageFailure
deriving Repr, DecidableEq

/-- Quota check of storeVideoFile: when navigator.storage.estimate is
available (modelled as some (quota, usage)), the write is allowed only if
file.size does not exceed 90 percent of the estimated free space
(file.size > availableSpace * 0.9 rejects; rationally, 10*size > 9*avail). -/
def quotaOk (estimate : Option (Nat × Nat)) (file : JSFile) : Bool :=
  match estimate with
  | none => true
  | some (quota, usage) =>
      !((10 * (file.size : Int)) > 9 * ((quota : Int) - (usage : Int)))

/-- Embedding of storeVideoFile.  The generated id video_Date.now()_random is
passed in as freshId, and formatUploadDate(new Date()) as uploadDate.  The
IndexedDB add request rejects when the key already exists. -/
def storeVideoFile (st : Store) (estimate : Option (Nat × Nat))
    (freshId uploadDate : String) (file : JSFile)
    (title description : String) (duration : Nat) (thumbnail : String) :
    Except StorageError (String × Store) :=
  if quotaOk estimate file = false then
    .error .quotaExceeded
  else if st.any (fun v => v.id == freshId) then
    .error .storageFailure
  else
    .ok (freshId,
      st ++ [{ id := freshId, file := file, title := title,
               description := description, uploadDate := uploadDate,
               duration := duration, thumbnail := thumbnail,
               size := file.size }])

/-- Embedding of getStoredVideo: point lookup by id. -/
def getStoredVideo (st : Store) (videoId : String) : Option StoredVideo :=
  st.find? (fun v => v.id == videoId)

/-- Embedding of getAllStoredVideos: full scan in store order. -/
def getAllStoredVideos (st : Store) : List StoredVideo := st

/-- Embedding of deleteStoredVideo: removes the record with the given key. -/
def deleteStoredVideo (st : Store) (videoId : String) : Store :=
  st.filter (fun v => v.id != videoId)

/-- Model of URL.createObjectURL: materializes a transient blob URL from a
file. -/
def createObjectURL (f : JSFile) : String := "blob:" ++ f.name

/-- Embedding of getStoredVideoUrl: looks the record up and wraps its file in
a blob URL; absent records yield null. -/
def getStoredVideoUrl (st : Store) (videoId : String) : Option String :=
  (getStoredVideo st videoId).map (fun v => createObjectURL v.file)

/-- Record returned by getStorageStats. -/
structure StorageStats where
  totalVideos : Nat
  totalSize : Nat
  availableQuota : Nat
  usedQuota : Nat
deriving Repr, DecidableEq

/-- Embedding of getStorageStats: counts and sums the stored records and
reports the platform estimate (0 when unavailable). -/
def getStorageStats (st : Store) (estimate : Option (Nat × Nat)) :
    StorageStats :=
  let videos := getAllStoredVideos st
  { totalVideos := videos.length
    totalSize := videos.foldl (fun sum v => sum + v.size) 0
    availableQuota := match estimate with | some (q, _) => q | none => 0
    usedQuota := match estimate with | some (_, u) => u | none => 0 }

/-- Catalog record (interface Video, src/types), creator inlined. -/
structure Video where
  id : String
  title : String
  description : String
  thumbnail : String
  videoUrl : String
  duration : String
  views : Nat
  likes : Nat
  uploadDate : String
  tags : List String
  category : String
  quality : List String
  creatorName : String
  creatorAvatar : String
  creatorSubscribers : Nat
deriving Repr, DecidableEq

/-- JavaScript string defaulting: s or d is s when s is truthy (nonempty),
otherwise d. -/
def jsOr (s d : String) : String := if s = "" then d else s

/-- Model of JavaScript String.prototype.trim: strips leading and trailing
whitespace from the character sequence. -/
def jsTrim (s : String) : String :=
  ⟨(((s.data.dropWhile Char.isWhitespace).reverse).dropWhile
      Char.isWhitespace).reverse⟩

/-- Model of JavaScript String.prototype.startsWith: the candidate head of
the character sequence equals the given pattern. -/
def jsStartsWith (s p : String) : Bool :=
  s.data.take p.data.length == p.data

/-- Tag parsing of handleSubmit:
formData.tags.split(",").map(trim).filter(nonempty). -/
def splitTags (s : String) : List String :=
  ((s.splitOn ",").map jsTrim).filter (fun t => t != "")

/-- Modelled from the spec (videoUtils.ts is absent from src): formatDuration
renders a duration in whole seconds as a minutes:seconds string. -/
def formatDuration (n : Nat) : String :=
  toString (n / 60) ++ ":" ++ (if n % 60 < 10 then "0" else "") ++
    toString (n % 60)

/-- Model of FileReader.readAsDataURL: a deterministic inline data-URL
encoding of the file content (no blob reference). -/
def readAsDataURL (f : JSFile) : String :=
  "data:" ++ f.type ++ ";base64," ++ toString f.content

/-- Modelled from the spec (videoUtils.ts is absent from src):
generateVideoThumbnail samples a frame from the video at a fixed seek offset;
the browser-dependent outcome (a thumbnail string, or a failure) is passed in
as frameSample. -/
def generateVideoThumbnail (frameSample : Except Unit String) :
    Except Unit String := frameSample

/-- Modelled from the spec (videoUtils.ts is absent from src):
getVideoDuration loads the file into a hidden media element and reads its
reported duration once metadata loads (mediaDuration = some d); on failure
(mediaDuration = none) the duration defaults to zero. -/
def getVideoDuration (mediaDuration : Option Nat) : Nat :=
  mediaDuration.getD 0

/-- Embedding of VideoService.uploadVideo: builds the new catalog record with
JavaScript-or defaults and unshifts it onto the mock catalog array.  The
generated id Date.now().toString() is passed in as newId. -/
def uploadVideo (catalog : List Video) (newId : String)
    (title description thumbnail videoUrl duration uploadDate : String)
    (tags : List String) (category : String) (quality : List String)
    (creatorName creatorAvatar : String) (creatorSubscribers : Nat) :
    Video × List Video :=
  let newVideo : Video :=
    { id := newId
      title := title
      description := description
      thumbnail := jsOr thumbnail "/default-thumbnail.jpg"
      videoUrl := videoUrl
      duration := jsOr duration "5:30"
      views := 0
      likes := 0
      uploadDate := uploadDate
      tags := tags
      category := category
      quality := quality
      creatorName := creatorName
      creatorAvatar := creatorAvatar
      creatorSubscribers := creatorSubscribers }
  (newVideo, newVideo :: catalog)

/-- Rejection causes of the upload submission handler, in source order. -/
inductive UploadError where
  | notLoggedIn
  | noVideoFile
  | emptyTitle
  | tooLarge
  | invalidInput
  | storage (e : StorageError)
deriving Repr, DecidableEq

/-- Outcome of one submission attempt. -/
inductive UploadOutcome where
  | success (videoId : String)
  | rejected (e : UploadError)
deriving Repr, DecidableEq

/-- Result state of one submission attempt: outcome, the Blob Store and
catalog afterwards, and whether the thumbnail-derivation stage was reached
(custom-thumbnail encoding or frame sampling). -/
structure SubmitResult where
  outcome : UploadOutcome
  store : Store
  catalog : List Video
  thumbnailDerived : Bool
deriving Repr, DecidableEq

/-- Post-validation stage of handleSubmit: thumbnail derivation (custom
thumbnail encoded inline, otherwise frame sampling with default-placeholder
fallback), duration extraction, Blob Store put, and on success the catalog
insertion referencing stored://id. -/
def submitPersist (creatorName creatorAvatar : String) (file : JSFile)
    (thumbnailFile : Option JSFile)
    (title description category tags quality : String)
    (st : Store) (catalog : List Video)
    (estimate : Option (Nat × Nat))
    (freshStoreId freshCatalogId uploadDate : String)
    (frameSample : Except Unit String) (mediaDuration : Option Nat) :
    SubmitResult :=
  let thumbnailUrl :=
    match thumbnailFile with
    | some tf => readAsDataURL tf
    | none =>
      match generateVideoThumbnail frameSample with
      | .ok t => t
      | .error _ => "/default-thumbnail.jpg"
  let actualDuration := getVideoDuration mediaDuration
  match storeVideoFile st estimate freshStoreId uploadDate file title
      description actualDuration thumbnailUrl with
  | .error e => ⟨.rejected (.storage e), st, catalog, true⟩
  | .ok (videoId, st2) =>
    let storedVideoUrl := "stored://" ++ videoId
    let inserted := uploadVideo catalog freshCatalogId title description
      thumbnailUrl storedVideoUrl (formatDuration actualDuration)
      uploadDate (splitTags tags) category [quality] creatorName
      creatorAvatar 0
    ⟨.success videoId, st2, inserted.2, true⟩

/-- Embedding of handleSubmit (VideoUploadModal.tsx).  Guards in source
order: logged-in user, selected video file, nonempty trimmed title, 100MB
size ceiling, video MIME type; then the persistence stage. -/
def handleSubmit (loggedIn : Bool) (creatorName creatorAvatar : String)
    (videoFile thumbnailFile : Option JSFile)
    (title description category tags quality : String)
    (st : Store) (catalog : List Video)
    (estimate : Option (Nat × Nat))
    (freshStoreId freshCatalogId uploadDate : String)
    (frameSample : Except Unit String) (mediaDuration : Option Nat) :
    SubmitResult :=
  if loggedIn = false then
    ⟨.rejected .notLoggedIn, st, catalog, false⟩
  else
    match videoFile with
    | none => ⟨.rejected .noVideoFile, st, catalog, false⟩
    | some file =>
      if jsTrim title = "" then
        ⟨.rejected .emptyTitle, st, catalog, false⟩
      else if file.size > 100 * 1024 * 1024 then
        ⟨.rejected .tooLarge, st, catalog, false⟩
      else if jsStartsWith file.type "video/" = false then
        ⟨.rejected .invalidInput, st, catalog, false⟩
      else
        submitPersist creatorName creatorAvatar file thumbnailFile title
          description category tags quality st catalog estimate freshStoreId
          freshCatalogId uploadDate frameSample mediaDuration

/-- Embedding of UserService.addToWishlist on the stored per-user wishlist:
the id is appended only when not already present, and the stored list is
left untouched otherwise. -/
def addToWishlist (wishlist : List String) (videoId : String) :
    List String :=
  if videoId ∈ wishlist then wishlist else wishlist ++ [videoId]

/-- Embedding of the watch-history update (useVideoDatabase.addToWatchHistory
and UserService.addToWatchHistory): remove the id if present, prepend it, and
keep the first 50 entries. -/
def addToWatchHistory (history : List String) (videoId : String) :
    List String :=
  (videoId :: history.filter (fun id => id != videoId)).take 50

lemma find?_append_right {p : StoredVideo → Bool} {l₁ l₂ : Store}
    (h : ∀ x ∈ l₁, p x = false) :
    List.find? p (l₁ ++ l₂) = List.find? p l₂ := by
  have h1 : List.find? p l₁ = none := by
    rw [List.find?_eq_none]
    intro x hx
    simp [h x hx]
  simp [List.find?_append, h1]

/-- Claim C1: a successful put followed by a get with the returned id yields
a record whose stored size field equals the byte length of the stored binary
payload at write time. -/
theorem put_then_get_size (st : Store) (estimate : Option (Nat × Nat))
    (freshId uploadDate : String) (file : JSFile)
    (title description : String) (duration : Nat) (thumbnail : String)
    (vid : String) (st2 : Store)
    (h : storeVideoFile st estimate freshId uploadDate file title description
          duration thumbnail = .ok (vid, st2)) :
    ∃ r, getStoredVideo st2 vid = some r ∧ r.size = r.file.content.length := by
  unfold storeVideoFile at h
  split at h
  · exact Except.noConfusion h
  · split at h
    next => exact Except.noConfusion h
    next hdup =>
      simp only [Except.ok.injEq, Prod.mk.injEq] at h
      obtain ⟨hvid, hst⟩ := h
      subst hvid
      subst hst
      refine ⟨{ id := freshId, file := file, title := title,
                description := description, uploadDate := uploadDate,
                duration := duration, thumbnail := thumbnail,
                size := file.size }, ?_, rfl⟩
      unfold getStoredVideo
      rw [find?_append_right]
      · simp
      · intro x hx
        cases hb : (x.id == freshId) with
        | false => rfl
        | true => exact absurd (List.any_eq_true.mpr ⟨x, hx, hb⟩) hdup

/-- Closed witness for put_then_get_size at a concrete small file and empty
store. -/
theorem put_then_get_size_witness :
    storeVideoFile [] none "video_1_abc" "Jan 1, 2025"
        ⟨"clip.mp4", "video/mp4", [7, 7, 7]⟩ "Test" "" 12 "/t.jpg" =
      .ok ("video_1_abc",
        [{ id := "video_1_abc", file := ⟨"clip.mp4", "video/mp4", [7, 7, 7]⟩,
           title := "Test", description := "", uploadDate := "Jan 1, 2025",
           duration := 12, thumbnail := "/t.jpg", size := 3 }]) ∧
    ∃ r, getStoredVideo
        [{ id := "video_1_abc", file := ⟨"clip.mp4", "video/mp4", [7, 7, 7]⟩,
           title := "Test", description := "", uploadDate := "Jan 1, 2025",
           duration := 12, thumbnail := "/t.jpg", size := 3 }] "video_1_abc" =
        some r ∧ r.size = r.file.content.length := by
  constructor
  · rfl
  · exact put_then_get_size [] none "video_1_abc" "Jan 1, 2025"
      ⟨"clip.mp4", "video/mp4", [7, 7, 7]⟩ "Test" "" 12 "/t.jpg"
      "video_1_abc" _ rfl

/-- Claim C8: stats().count equals the cardinality of getAll(), in every
store state. -/
theorem stats_count_eq_getAll_length (st : Store)
    (estimate : Option (Nat × Nat)) :
    (getStorageStats st estimate).totalVideos =
      (getAllStoredVideos st).length := rfl

/-- Claim C7: resolving the playback reference of an id that is not present
in the store returns absent (and, being a total function on the model, never
throws). -/
theorem resolve_absent_id (st : Store) (videoId : String)
    (h : ∀ v ∈ st, v.id ≠ videoId) :
    getStoredVideoUrl st videoId = none := by
  unfold getStoredVideoUrl getStoredVideo
  have : List.find? (fun v => v.id == videoId) st = none := by
    rw [List.find?_eq_none]
    intro x hx
    simpa using h x hx
  rw [this]
  rfl

/-- Closed witness for resolve_absent_id on a one-record store and a
different id. -/
theorem resolve_absent_id_witness :
    (∀ v ∈ ([{ id := "video_1_abc",
               file := ⟨"clip.mp4", "video/mp4", [7, 7, 7]⟩,
               title := "Test", description := "",
               uploadDate := "Jan 1, 2025", duration := 12,
               thumbnail := "/t.jpg", size := 3 }] : Store),
        v.id ≠ "missing") ∧
    getStoredVideoUrl
        [{ id := "video_1_abc", file := ⟨"clip.mp4", "video/mp4", [7, 7, 7]⟩,
           title := "Test", description := "", uploadDate := "Jan 1, 2025",
           duration := 12, thumbnail := "/t.jpg", size := 3 }] "missing" =
      none := by
  refine ⟨by decide, ?_⟩
  exact resolve_absent_id _ "missing" (by decide)

lemma length_filter_out_id {st : Store} {videoId : String}
    (hnd : (st.map StoredVideo.id).Nodup)
    (hmem : ∃ v ∈ st, v.id = videoId) :
    (st.filter (fun v => v.id != videoId)).length + 1 = st.length := by
  induction st with
  | nil => simp at hmem
  | cons a t ih =>
      simp only [List.map_cons, List.nodup_cons] at hnd
      obtain ⟨hna, hnt⟩ := hnd
      by_cases ha : a.id = videoId
      · have ht : t.filter (fun v => v.id != videoId) = t := by
          apply List.filter_eq_self.mpr
          intro x hx
          have hxne : x.id ≠ videoId := by
            intro hxe
            exact hna (ha ▸ hxe ▸ List.mem_map_of_mem StoredVideo.id hx)
          simpa using hxne
        simp [List.filter_cons, ha, ht]
      · have hmem2 : ∃ v ∈ t, v.id = videoId := by
          obtain ⟨v, hv, hvid⟩ := hmem
          rcases List.mem_cons.mp hv with hva | hvt
          · exact absurd (hva ▸ hvid) ha
          · exact ⟨v, hvt, hvid⟩
        have hrec := ih hnt hmem2
        have hka : (a.id != videoId) = true := by simpa using ha
        simp [List.filter_cons, hka]
        omega

/-- Claim C6: deleting a previously stored id makes a subsequent get return
absent, and stats().count is exactly one less than before the delete. -/
theorem delete_then_absent_and_count (st : Store)
    (estimate : Option (Nat × Nat)) (videoId : String)
    (hnd : (st.map StoredVideo.id).Nodup)
    (hmem : ∃ v ∈ st, v.id = videoId) :
    getStoredVideo (deleteStoredVideo st videoId) videoId = none ∧
    (getStorageStats (deleteStoredVideo st videoId) estimate).totalVideos + 1 =
      (getStorageStats st estimate).totalVideos := by
  constructor
  · unfold getStoredVideo deleteStoredVideo
    rw [List.find?_eq_none]
    intro x hx
    have hne := (List.mem_filter.mp hx).2
    simp only [bne_iff_ne, ne_eq] at hne
    simpa using hne
  · have hlen := length_filter_out_id hnd hmem
    simpa [getStorageStats, getAllStoredVideos, deleteStoredVideo] using hlen

/-- Closed witness for delete_then_absent_and_count on a two-record store. -/
theorem delete_then_absent_and_count_witness :
    (([{ id := "a1", file := ⟨"x.mp4", "video/mp4", [1]⟩, title := "A",
         description := "", uploadDate := "d", duration := 1,
         thumbnail := "t", size := 1 },
       { id := "b2", file := ⟨"y.mp4", "video/mp4", [2, 2]⟩, title := "B",
         description := "", uploadDate := "d", duration := 2,
         thumbnail := "t", size := 2 }] : Store).map StoredVideo.id).Nodup ∧
    getStoredVideo
      (deleteStoredVideo
        [{ id := "a1", file := ⟨"x.mp4", "video/mp4", [1]⟩, title := "A",
           description := "", uploadDate := "d", duration := 1,
           thumbnail := "t", size := 1 },
         { id := "b2", file := ⟨"y.mp4", "video/mp4", [2, 2]⟩, title := "B",
           description := "", uploadDate := "d", duration := 2,
           thumbnail := "t", size := 2 }] "a1") "a1" = none ∧
    (getStorageStats
      (deleteStoredVideo
        [{ id := "a1", file := ⟨"x.mp4", "video/mp4", [1]⟩, title := "A",
           description := "", uploadDate := "d", duration := 1,
           thumbnail := "t", size := 1 },
         { id := "b2", file := ⟨"y.mp4", "video/mp4", [2, 2]⟩, title := "B",
           description := "", uploadDate := "d", duration := 2,
           thumbnail := "t", size := 2 }] "a1") none).totalVideos + 1 =
    (getStorageStats
        [{ id := "a1", file := ⟨"x.mp4", "video/mp4", [1]⟩, title := "A",
           description := "", uploadDate := "d", duration := 1,
           thumbnail := "t", size := 1 },
         { id := "b2", file := ⟨"y.mp4", "video/mp4", [2, 2]⟩, title := "B",
           description := "", uploadDate := "d", duration := 2,
           thumbnail := "t", size := 2 }] none).totalVideos := by
  refine ⟨by decide, ?_⟩
  exact delete_then_absent_and_count _ none "a1" (by decide) (by decide)

lemma handleSubmit_notLoggedIn (creatorName creatorAvatar : String)
    (videoFile thumbnailFile : Option JSFile)
    (title description category tags quality : String)
    (st : Store) (catalog : List Video) (estimate : Option (Nat × Nat))
    (freshStoreId freshCatalogId uploadDate : String)
    (frameSample : Except Unit String) (mediaDuration : Option Nat) :
    handleSubmit false creatorName creatorAvatar videoFile thumbnailFile
      title description category tags quality st catalog estimate
      freshStoreId freshCatalogId uploadDate frameSample mediaDuration =
      ⟨.rejected .notLoggedIn, st, catalog, false⟩ := by
  unfold handleSubmit
  simp

lemma handleSubmit_emptyTitle (creatorName creatorAvatar : String)
    (file : JSFile) (thumbnailFile : Option JSFile)
    (title description category tags quality : String)
    (st : Store) (catalog : List Video) (estimate : Option (Nat × Nat))
    (freshStoreId freshCatalogId uploadDate : String)
    (frameSample : Except Unit String) (mediaDuration : Option Nat)
    (ht : jsTrim title = "") :
    handleSubmit true creatorName creatorAvatar (some file) thumbnailFile
      title description category tags quality st catalog estimate
      freshStoreId freshCatalogId uploadDate frameSample mediaDuration =
      ⟨.rejected .emptyTitle, st, catalog, false⟩ := by
  unfold handleSubmit
  simp [ht]

lemma handleSubmit_tooLarge (creatorName creatorAvatar : String)
    (file : JSFile) (thumbnailFile : Option JSFile)
    (title description category tags quality : String)
    (st : Store) (catalog : List Video) (estimate : Option (Nat × Nat))
    (freshStoreId freshCatalogId uploadDate : String)
    (frameSample : Except Unit String) (mediaDuration : Option Nat)
    (ht : jsTrim title ≠ "") (hbig : file.size > 100 * 1024 * 1024) :
    handleSubmit true creatorName creatorAvatar (some file) thumbnailFile
      title description category tags quality st catalog estimate
      freshStoreId freshCatalogId uploadDate frameSample mediaDuration =
      ⟨.rejected .tooLarge, st, catalog, false⟩ := by
  unfold handleSubmit
  simp [ht, hbig]

lemma handleSubmit_invalidType (creatorName creatorAvatar : String)
    (file : JSFile) (thumbnailFile : Option JSFile)
    (title description category tags quality : String)
    (st : Store) (catalog : List Video) (estimate : Option (Nat × Nat))
    (freshStoreId freshCatalogId uploadDate : String)
    (frameSample : Except Unit String) (mediaDuration : Option Nat)
    (ht : jsTrim title ≠ "") (hsize : ¬ file.size > 100 * 1024 * 1024)
    (htype : jsStartsWith file.type "video/" = false) :
    handleSubmit true creatorName creatorAvatar (some file) thumbnailFile
      title description category tags quality st catalog estimate
      freshStoreId freshCatalogId uploadDate frameSample mediaDuration =
      ⟨.rejected .invalidInput, st, catalog, false⟩ := by
  unfold handleSubmit
  simp [ht, hsize, htype]

/-- Claim C2: a selected video file whose size exceeds the 100MB submission
ceiling leaves the Blob Store untouched (record count unchanged), and when
the submission reaches the size check (logged in, nonempty title) it is
rejected as too large. -/
theorem oversized_rejected_before_write (loggedIn : Bool)
    (creatorName creatorAvatar : String)
    (file : JSFile) (thumbnailFile : Option JSFile)
    (title description category tags quality : String)
    (st : Store) (catalog : List Video) (estimate : Option (Nat × Nat))
    (freshStoreId freshCatalogId uploadDate : String)
    (frameSample : Except Unit String) (mediaDuration : Option Nat)
    (hbig : file.size > 100 * 1024 * 1024) :
    (handleSubmit loggedIn creatorName creatorAvatar (some file)
        thumbnailFile title description category tags quality st catalog
        estimate freshStoreId freshCatalogId uploadDate frameSample
        mediaDuration).store = st ∧
    (getStorageStats (handleSubmit loggedIn creatorName creatorAvatar
        (some file) thumbnailFile title description category tags quality st
        catalog estimate freshStoreId freshCatalogId uploadDate frameSample
        mediaDuration).store estimate).totalVideos =
      (getStorageStats st estimate).totalVideos ∧
    (loggedIn = true → jsTrim title ≠ "" →
      (handleSubmit loggedIn creatorName creatorAvatar (some file)
          thumbnailFile title description category tags quality st catalog
          estimate freshStoreId freshCatalogId uploadDate frameSample
          mediaDuration).outcome = .rejected .tooLarge) := by
  cases loggedIn with
  | false =>
      rw [handleSubmit_notLoggedIn]
      simp
  | true =>
      by_cases ht : jsTrim title = ""
      · rw [handleSubmit_emptyTitle creatorName creatorAvatar file
          thumbnailFile title description category tags quality st catalog
          estimate freshStoreId freshCatalogId uploadDate frameSample
          mediaDuration ht]
        simp [ht]
      · rw [handleSubmit_tooLarge creatorName creatorAvatar file
          thumbnailFile title description category tags quality st catalog
          estimate freshStoreId freshCatalogId uploadDate frameSample
          mediaDuration ht hbig]
        simp

/-- Closed witness for oversized_rejected_before_write: a 101MB video file
submitted while logged in with title "T" on an empty store. -/
theorem oversized_rejected_before_write_witness :
    (JSFile.mk "big.mp4" "video/mp4"
        (List.replicate (101 * 1024 * 1024) 0)).size > 100 * 1024 * 1024 ∧
    ((handleSubmit true "u" "/a.png"
        (some ⟨"big.mp4", "video/mp4", List.replicate (101 * 1024 * 1024) 0⟩)
        none "T" "" "entertainment" "" "1080p" [] [] none "s1" "c1" "d"
        (.error ()) none).store = ([] : Store) ∧
      (getStorageStats (handleSubmit true "u" "/a.png"
          (some ⟨"big.mp4", "video/mp4",
            List.replicate (101 * 1024 * 1024) 0⟩)
          none "T" "" "entertainment" "" "1080p" [] [] none "s1" "c1" "d"
          (.error ()) none).store none).totalVideos =
        (getStorageStats ([] : Store) none).totalVideos ∧
      (true = true → jsTrim "T" ≠ "" →
        (handleSubmit true "u" "/a.png"
            (some ⟨"big.mp4", "video/mp4",
              List.replicate (101 * 1024 * 1024) 0⟩)
            none "T" "" "entertainment" "" "1080p" [] [] none "s1" "c1" "d"
            (.error ()) none).outcome = .rejected .tooLarge)) := by
  have hbig : (JSFile.mk "big.mp4" "video/mp4"
      (List.replicate (101 * 1024 * 1024) 0)).size > 100 * 1024 * 1024 := by
    show (List.replicate (101 * 1024 * 1024) 0).length > 100 * 1024 * 1024
    rw [List.length_replicate]
    norm_num
  exact ⟨hbig, oversized_rejected_before_write true "u" "/a.png"
    ⟨"big.mp4", "video/mp4", List.replicate (101 * 1024 * 1024) 0⟩
    none "T" "" "entertainment" "" "1080p" [] [] none "s1" "c1" "d"
    (.error ()) none hbig⟩

/-- Claim C5 counterexample: a 200MB non-video file (type image/png),
submitted while logged in with a nonempty title, is rejected as too large —
not with the invalid-input rejection the claim requires — because the size
check precedes the MIME-type check in handleSubmit. -/
theorem nonvideo_oversized_counterexample :
    jsStartsWith (JSFile.mk "x.png" "image/png"
        (List.replicate (200 * 1024 * 1024) 0)).type "video/"
      = false ∧
    (handleSubmit true "u" "/a.png"
        (some ⟨"x.png", "image/png", List.replicate (200 * 1024 * 1024) 0⟩)
        none "T" "" "entertainment" "" "1080p" [] [] none "s1" "c1" "d"
        (.error ()) none).outcome = .rejected .tooLarge ∧
    ¬ (handleSubmit true "u" "/a.png"
        (some ⟨"x.png", "image/png", List.replicate (200 * 1024 * 1024) 0⟩)
        none "T" "" "entertainment" "" "1080p" [] [] none "s1" "c1" "d"
        (.error ()) none).outcome = .rejected .invalidInput := by
  have hbig : (JSFile.mk "x.png" "image/png"
      (List.replicate (200 * 1024 * 1024) 0)).size > 100 * 1024 * 1024 := by
    show (List.replicate (200 * 1024 * 1024) 0).length > 100 * 1024 * 1024
    rw [List.length_replicate]
    norm_num
  have heval := handleSubmit_tooLarge "u" "/a.png"
    ⟨"x.png", "image/png", List.replicate (200 * 1024 * 1024) 0⟩
    none "T" "" "entertainment" "" "1080p" [] [] none "s1" "c1" "d"
    (.error ()) none (by decide) hbig
  refine ⟨by decide, ?_, ?_⟩
  · rw [heval]
  · rw [heval]
    decide

/-- Claim C5 as amended: a non-video file never reaches thumbnail derivation
and leaves store and catalog untouched; it is rejected with invalidInput
provided it also passes the earlier guards (logged in, nonempty title, size
within the 100MB ceiling) — an oversized non-video file is rejected as too
large instead. -/
theorem nonvideo_rejected_no_derivation (loggedIn : Bool)
    (creatorName creatorAvatar : String)
    (file : JSFile) (thumbnailFile : Option JSFile)
    (title description category tags quality : String)
    (st : Store) (catalog : List Video) (estimate : Option (Nat × Nat))
    (freshStoreId freshCatalogId uploadDate : String)
    (frameSample : Except Unit String) (mediaDuration : Option Nat)
    (htype : jsStartsWith file.type "video/" = false) :
    (handleSubmit loggedIn creatorName creatorAvatar (some file)
        thumbnailFile title description category tags quality st catalog
        estimate freshStoreId freshCatalogId uploadDate frameSample
        mediaDuration).thumbnailDerived = false ∧
    (handleSubmit loggedIn creatorName creatorAvatar (some file)
        thumbnailFile title description category tags quality st catalog
        estimate freshStoreId freshCatalogId uploadDate frameSample
        mediaDuration).store = st ∧
    (handleSubmit loggedIn creatorName creatorAvatar (some file)
        thumbnailFile title description category tags quality st catalog
        estimate freshStoreId freshCatalogId uploadDate frameSample
        mediaDuration).catalog = catalog ∧
    (loggedIn = true → jsTrim title ≠ "" →
      ¬ file.size > 100 * 1024 * 1024 →
      (handleSubmit loggedIn creatorName creatorAvatar (some file)
          thumbnailFile title description category tags quality st catalog
          estimate freshStoreId freshCatalogId uploadDate frameSample
          mediaDuration).outcome = .rejected .invalidInput) := by
  cases loggedIn with
  | false =>
      rw [handleSubmit_notLoggedIn]
      simp
  | true =>
      by_cases ht : jsTrim title = ""
      · rw [handleSubmit_emptyTitle creatorName creatorAvatar file
          thumbnailFile title description category tags quality st catalog
          estimate freshStoreId freshCatalogId uploadDate frameSample
          mediaDuration ht]
        simp [ht]
      · by_cases hsize : file.size > 100 * 1024 * 1024
        · rw [handleSubmit_tooLarge creatorName creatorAvatar file
            thumbnailFile title description category tags quality st catalog
            estimate freshStoreId freshCatalogId uploadDate frameSample
            mediaDuration ht hsize]
          simp [hsize]
        · rw [handleSubmit_invalidType creatorName creatorAvatar file
            thumbnailFile title description category tags quality st catalog
            estimate freshStoreId freshCatalogId uploadDate frameSample
            mediaDuration ht hsize htype]
          simp

/-- Closed witness for nonvideo_rejected_no_derivation: a tiny text file
submitted while logged in with title "T" on an empty store. -/
theorem nonvideo_rejected_no_derivation_witness :
    jsStartsWith (JSFile.mk "n.txt" "text/plain" [1, 2]).type "video/"
      = false ∧
    ((handleSubmit true "u" "/a.png"
        (some ⟨"n.txt", "text/plain", [1, 2]⟩) none "T" "" "entertainment"
        "" "1080p" [] [] none "s1" "c1" "d" (.error ())
        none).thumbnailDerived = false ∧
      (handleSubmit true "u" "/a.png"
        (some ⟨"n.txt", "text/plain", [1, 2]⟩) none "T" "" "entertainment"
        "" "1080p" [] [] none "s1" "c1" "d" (.error ())
        none).store = ([] : Store) ∧
      (handleSubmit true "u" "/a.png"
        (some ⟨"n.txt", "text/plain", [1, 2]⟩) none "T" "" "entertainment"
        "" "1080p" [] [] none "s1" "c1" "d" (.error ())
        none).catalog = ([] : List Video) ∧
      (true = true → jsTrim "T" ≠ "" →
        ¬ (JSFile.mk "n.txt" "text/plain" [1, 2]).size > 100 * 1024 * 1024 →
        (handleSubmit true "u" "/a.png"
            (some ⟨"n.txt", "text/plain", [1, 2]⟩) none "T" ""
            "entertainment" "" "1080p" [] [] none "s1" "c1" "d" (.error ())
            none).outcome = .rejected .invalidInput)) := by
  exact ⟨by decide, nonvideo_rejected_no_derivation true "u" "/a.png"
    ⟨"n.txt", "text/plain", [1, 2]⟩ none "T" "" "entertainment" "" "1080p"
    [] [] none "s1" "c1" "d" (.error ()) none (by decide)⟩

lemma handleSubmit_persist (creatorName creatorAvatar : String)
    (file : JSFile) (thumbnailFile : Option JSFile)
    (title description category tags quality : String)
    (st : Store) (catalog : List Video) (estimate : Option (Nat × Nat))
    (freshStoreId freshCatalogId uploadDate : String)
    (frameSample : Except Unit String) (mediaDuration : Option Nat)
    (ht : jsTrim title ≠ "") (hsize : ¬ file.size > 100 * 1024 * 1024)
    (htype : jsStartsWith file.type "video/" = true) :
    handleSubmit true creatorName creatorAvatar (some file) thumbnailFile
      title description category tags quality st catalog estimate
      freshStoreId freshCatalogId uploadDate frameSample mediaDuration =
      submitPersist creatorName creatorAvatar file thumbnailFile title
        description category tags quality st catalog estimate freshStoreId
        freshCatalogId uploadDate frameSample mediaDuration := by
  unfold handleSubmit
  simp [ht, hsize, htype]

/-- Claim C3: a catalog entry is inserted only when the Blob Store put has
succeeded — on any rejection the catalog is unchanged — and the inserted
entry's playback reference is stored://id for exactly the id returned by the
put. -/
theorem catalog_entry_only_after_put (loggedIn : Bool)
    (creatorName creatorAvatar : String)
    (videoFile thumbnailFile : Option JSFile)
    (title description category tags quality : String)
    (st : Store) (catalog : List Video) (estimate : Option (Nat × Nat))
    (freshStoreId freshCatalogId uploadDate : String)
    (frameSample : Except Unit String) (mediaDuration : Option Nat)
    (r : SubmitResult)
    (hr : r = handleSubmit loggedIn creatorName creatorAvatar videoFile
      thumbnailFile title description category tags quality st catalog
      estimate freshStoreId freshCatalogId uploadDate frameSample
      mediaDuration) :
    (r.catalog = catalog ∧ ∀ v, r.outcome ≠ .success v) ∨
    (∃ file thumb vid st2, videoFile = some file ∧
      storeVideoFile st estimate freshStoreId uploadDate file title
        description (getVideoDuration mediaDuration) thumb = .ok (vid, st2) ∧
      r.outcome = .success vid ∧ r.store = st2 ∧
      ∃ entry, r.catalog = entry :: catalog ∧
        entry.videoUrl = "stored://" ++ vid) := by
  subst hr
  cases loggedIn with
  | false =>
      rw [handleSubmit_notLoggedIn]
      left
      simp
  | true =>
      cases videoFile with
      | none =>
          left
          unfold handleSubmit
          simp
      | some file =>
          by_cases ht : jsTrim title = ""
          · rw [handleSubmit_emptyTitle creatorName creatorAvatar file
              thumbnailFile title description category tags quality st
              catalog estimate freshStoreId freshCatalogId uploadDate
              frameSample mediaDuration ht]
            left
            simp
          · by_cases hsize : file.size > 100 * 1024 * 1024
            · rw [handleSubmit_tooLarge creatorName creatorAvatar file
                thumbnailFile title description category tags quality st
                catalog estimate freshStoreId freshCatalogId uploadDate
                frameSample mediaDuration ht hsize]
              left
              simp
            · by_cases htype : jsStartsWith file.type "video/" = false
              · rw [handleSubmit_invalidType creatorName creatorAvatar file
                  thumbnailFile title description category tags quality st
                  catalog estimate freshStoreId freshCatalogId uploadDate
                  frameSample mediaDuration ht hsize htype]
                left
                simp
              · have htype2 : jsStartsWith file.type "video/" = true := by
                  simpa using htype
                rw [handleSubmit_persist creatorName creatorAvatar file
                  thumbnailFile title description category tags quality st
                  catalog estimate freshStoreId freshCatalogId uploadDate
                  frameSample mediaDuration ht hsize htype2]
                unfold submitPersist
                cases hstore : storeVideoFile st estimate freshStoreId
                    uploadDate file title description
                    (getVideoDuration mediaDuration)
                    (match thumbnailFile with
                     | some tf => readAsDataURL tf
                     | none =>
                       match generateVideoThumbnail frameSample with
                       | .ok t => t
                       | .error _ => "/default-thumbnail.jpg") with
                | error e =>
                    left
                    simp [hstore]
                | ok p =>
                    obtain ⟨vid, st2⟩ := p
                    right
                    refine ⟨file, _, vid, st2, rfl, hstore, ?_, ?_, ?_⟩
                    · simp [hstore]
                    · simp [hstore]
                    · simp only [hstore]
                      exact ⟨_, rfl, rfl⟩

/-- Closed witness for catalog_entry_only_after_put at a logged-out
submission on empty state. -/
theorem catalog_entry_only_after_put_witness :
    (⟨.rejected .notLoggedIn, [], [], false⟩ : SubmitResult) =
      handleSubmit false "u" "/a.png" none none "T" "" "entertainment" ""
        "1080p" [] [] none "s1" "c1" "d" (.error ()) none ∧
    (((⟨.rejected .notLoggedIn, [], [], false⟩ : SubmitResult).catalog =
        ([] : List Video) ∧
      ∀ v, (⟨.rejected .notLoggedIn, [], [], false⟩ :
        SubmitResult).outcome ≠ .success v) ∨
    (∃ file thumb vid st2, (none : Option JSFile) = some file ∧
      storeVideoFile [] none "s1" "d" file "T" ""
        (getVideoDuration none) thumb = .ok (vid, st2) ∧
      (⟨.rejected .notLoggedIn, [], [], false⟩ : SubmitResult).outcome =
        .success vid ∧
      (⟨.rejected .notLoggedIn, [], [], false⟩ : SubmitResult).store = st2 ∧
      ∃ entry, (⟨.rejected .notLoggedIn, [], [], false⟩ :
          SubmitResult).catalog = entry :: ([] : List Video) ∧
        entry.videoUrl = "stored://" ++ vid)) := by
  refine ⟨rfl, ?_⟩
  exact catalog_entry_only_after_put false "u" "/a.png" none none "T" ""
    "entertainment" "" "1080p" [] [] none "s1" "c1" "d" (.error ()) none
    ⟨.rejected .notLoggedIn, [], [], false⟩ rfl

/-- Claim C4: when thumbnail generation fails (no custom thumbnail, frame
sampling errors) and duration extraction fails, the upload still proceeds to
persistence with the default placeholder thumbnail and duration zero. -/
theorem derivation_failure_defaults (creatorName creatorAvatar : String)
    (file : JSFile) (title description category tags quality : String)
    (st : Store) (catalog : List Video) (estimate : Option (Nat × Nat))
    (freshStoreId freshCatalogId uploadDate : String)
    (ht : jsTrim title ≠ "") (hsize : ¬ file.size > 100 * 1024 * 1024)
    (htype : jsStartsWith file.type "video/" = true)
    (hq : quotaOk estimate file = true)
    (hfresh : st.any (fun v => v.id == freshStoreId) = false) :
    (handleSubmit true creatorName creatorAvatar (some file) none title
        description category tags quality st catalog estimate freshStoreId
        freshCatalogId uploadDate (.error ()) none).outcome =
      .success freshStoreId ∧
    (handleSubmit true creatorName creatorAvatar (some file) none title
        description category tags quality st catalog estimate freshStoreId
        freshCatalogId uploadDate (.error ()) none).store =
      st ++ [{ id := freshStoreId, file := file, title := title,
               description := description, uploadDate := uploadDate,
               duration := 0, thumbnail := "/default-thumbnail.jpg",
               size := file.size }] := by
  rw [handleSubmit_persist creatorName creatorAvatar file none title
    description category tags quality st catalog estimate freshStoreId
    freshCatalogId uploadDate (.error ()) none ht hsize htype]
  unfold submitPersist generateVideoThumbnail getVideoDuration
  unfold storeVideoFile
  simp [hq, hfresh]

/-- Closed witness for derivation_failure_defaults: a tiny video file,
quota not queryable, empty store, both derivations failing. -/
theorem derivation_failure_defaults_witness :
    (jsTrim "T" ≠ "" ∧
      ¬ (JSFile.mk "c.mp4" "video/mp4" [9]).size > 100 * 1024 * 1024 ∧
      jsStartsWith (JSFile.mk "c.mp4" "video/mp4" [9]).type "video/"
        = true ∧
      quotaOk none ⟨"c.mp4", "video/mp4", [9]⟩ = true ∧
      ([] : Store).any (fun v => v.id == "s1") = false) ∧
    ((handleSubmit true "u" "/a.png" (some ⟨"c.mp4", "video/mp4", [9]⟩)
        none "T" "" "entertainment" "" "1080p" [] [] none "s1" "c1" "d"
        (.error ()) none).outcome = .success "s1" ∧
      (handleSubmit true "u" "/a.png" (some ⟨"c.mp4", "video/mp4", [9]⟩)
        none "T" "" "entertainment" "" "1080p" [] [] none "s1" "c1" "d"
        (.error ()) none).store =
      [] ++ [{ id := "s1", file := ⟨"c.mp4", "video/mp4", [9]⟩,
               title := "T", description := "", uploadDate := "d",
               duration := 0, thumbnail := "/default-thumbnail.jpg",
               size := (JSFile.mk "c.mp4" "video/mp4" [9]).size }]) := by
  refine ⟨⟨by decide, by decide, by decide, by decide, by decide⟩, ?_⟩
  exact derivation_failure_defaults "u" "/a.png" ⟨"c.mp4", "video/mp4", [9]⟩
    "T" "" "entertainment" "" "1080p" [] [] none "s1" "c1" "d"
    (by decide) (by decide) (by decide) (by decide) (by decide)

/-- Claim C9: addToWishlist is idempotent — an id already present leaves the
stored wishlist unchanged — and it preserves freedom from duplicates. -/
theorem addToWishlist_idempotent_nodup (wishlist : List String)
    (videoId : String) :
    (videoId ∈ wishlist → addToWishlist wishlist videoId = wishlist) ∧
    (wishlist.Nodup → (addToWishlist wishlist videoId).Nodup) := by
  constructor
  · intro h
    unfold addToWishlist
    simp [h]
  · intro hnd
    unfold addToWishlist
    by_cases h : videoId ∈ wishlist
    · simpa [h] using hnd
    · simp [h, List.nodup_append, hnd]

/-- Closed witness for addToWishlist_idempotent_nodup on concrete two-entry
wishlists. -/
theorem addToWishlist_idempotent_nodup_witness :
    addToWishlist ["a", "b"] "a" = ["a", "b"] ∧
    (addToWishlist ["a", "b"] "c").Nodup := by
  constructor
  · exact (addToWishlist_idempotent_nodup ["a", "b"] "a").1 (by decide)
  · exact (addToWishlist_idempotent_nodup ["a", "b"] "c").2 (by decide)

/-- Claim C10: after a watch-history update on a duplicate-free history, the
history is still duplicate-free, starts with the just-watched id, and has at
most 50 entries. -/
theorem addToWatchHistory_invariant (history : List String)
    (videoId : String) (hnd : history.Nodup) :
    (addToWatchHistory history videoId).Nodup ∧
    (addToWatchHistory history videoId).head? = some videoId ∧
    (addToWatchHistory history videoId).length ≤ 50 := by
  unfold addToWatchHistory
  refine ⟨?_, ?_, ?_⟩
  · apply List.Nodup.sublist (List.take_sublist 50 _)
    refine List.nodup_cons.mpr ⟨?_, hnd.filter _⟩
    intro hmem
    have := (List.mem_filter.mp hmem).2
    simp at this
  · have h1 : (videoId :: history.filter (fun id => id != videoId)).take 50 =
        videoId :: (history.filter (fun id => id != videoId)).take 49 := rfl
    rw [h1]
    rfl
  · rw [List.length_take]
    omega

/-- Closed witness for addToWatchHistory_invariant on a concrete history. -/
theorem addToWatchHistory_invariant_witness :
    (["a", "b"] : List String).Nodup ∧
    ((addToWatchHistory ["a", "b"] "b").Nodup ∧
      (addToWatchHistory ["a", "b"] "b").head? = some "b" ∧
      (addToWatchHistory ["a", "b"] "b").length ≤ 50) := by
  exact ⟨by decide, addToWatchHistory_invariant ["a", "b"] "b" (by decide)⟩

end SlimeTube
